import Mathlib

/-!
# Shallow embedding of `parselog.py` (diag-parser)

This file models the decoding engine of `src/parselog.py`: the one-byte
duration codec (`decode_duration`), the record framer (`Record._parse` /
`Record.__init__`), the corruption-recovery path for the 0xFF erased-flash
sentinel (`UnusedRecord`), the timestamp/timezone state machine
(`TimestampRecord.parse`, `TimeDeltaRecord.parse`, `BluetoothRecord.parse`),
the cross-record timestamp borrowing (`StepsRecord.parse`), and the stream
decoder loop (`LogParser.parse`).

Modelling conventions:
* Bytes are `Nat` (values 0..255 in any real buffer); the cursor is a
  `List Nat` consumed from the front, like the Python `bytearray` popped
  with `pop(0)` / `del src[:n]`.
* Python `datetime` values are modelled as `Int` microseconds since the
  Unix epoch.  `Record._tocks / 64` seconds is exactly `tocks * 15625`
  microseconds (division by 64 is exact in binary floating point and the
  conversion of `timedelta(seconds=...)` to microseconds is exact in the
  relevant range), so all time arithmetic is exact integer arithmetic.
* Each record-kind decoder (`parse` method of a `Record` subclass) is
  modelled by its effect on the decoding state and its success condition:
  whether the Python body raises (struct.error / IndexError / KeyError /
  NameError / TypeError / AttributeError, all of which `Record.__init__`
  converts to `ParseError`).  The pure display-string formatting and the
  per-kind field dictionaries have no effect on framing, state or
  timestamps and are not needed by any property below.
* `Record.__init__` wraps ANY exception raised by `_parse` (including the
  `OutOfData` raised internally for a short tick-delta read) in
  `ParseError`; only the `IndexError` on popping the type byte in
  `LogParser.get_record` becomes a clean `OutOfData`.  The step result
  type below mirrors exactly this.
* Python `datetime` arithmetic raises `OverflowError` when a computed
  instant leaves the representable range (year 1 to 9999); the model
  checks the same bounds, in exact integer microseconds
  (`DT_MIN_USEC`/`DT_MAX_USEC`), at the three places the engine computes
  a datetime from the running tock counter: the framing timestamp
  (line 174), the `now` value of `TimeDeltaRecord.parse` (line 554) and
  the alarm instant of `AlarmLoadRecord.parse` (line 744).  The
  alarm-time *rendering* that follows (`fromtimestamp` of the
  minute-rounded local timestamp) additionally depends on the host's
  local timezone; within a minute of the range boundaries its success is
  host-dependent, and the model treats it as success.  Likewise the
  `strftime` rendering of an in-range timestamp (line 195) never raises
  on glibc hosts, though its padding of years below 1000 is
  platform-dependent; the model treats it as success.
-/

/-- Little-endian 16-bit value, as read by `struct.unpack_from('<H', src)`. -/
def u16le (lo hi : Nat) : Nat := lo + 256 * hi

/-- Little-endian 32-bit value, as read by `struct.unpack_from('<L', src)`. -/
def u32le (b0 b1 b2 b3 : Nat) : Nat :=
  b0 + 256 * b1 + 65536 * b2 + 16777216 * b3

/-- Signed byte, as read by `struct.unpack('b', ...)`. -/
def s8 (b : Nat) : Int := if b < 128 then (b : Int) else (b : Int) - 256

/-- Signed little-endian 32-bit value, as read by `struct.unpack_from('<l', ...)`. -/
def s32 (u : Nat) : Int :=
  if u < 2147483648 then (u : Int) else (u : Int) - 4294967296

/-- One tock is 1/64 s = 15625 microseconds. -/
def USEC_PER_TOCK : Int := 15625

/-- 900 seconds (15 minutes) in microseconds: unit of the timezone offset byte. -/
def USEC_PER_TZ_UNIT : Int := 900 * 1000000

/-- `dt.datetime(1999,1,1)` (the initial `Record._ts_base`) in microseconds
since the Unix epoch: 915148800 s. -/
def TS_1999 : Int := 915148800 * 1000000

/-- `datetime.min` (0001-01-01 00:00:00) in microseconds since the Unix
epoch: −719162 days.  Python datetime arithmetic producing an earlier
instant raises `OverflowError`. -/
def DT_MIN_USEC : Int := -62135596800 * 1000000

/-- `datetime.max` (9999-12-31 23:59:59.999999) in microseconds since the
Unix epoch.  Python datetime arithmetic producing a later instant raises
`OverflowError`. -/
def DT_MAX_USEC : Int := 253402300799999999

/-- Usable bytes per 4096-byte flash sector (16 reserved): the alignment
modulus `4096-16` in `UnusedRecord._parse`. -/
def SECTOR_USABLE : Nat := 4096 - 16

/-- `decode_duration` from `parselog.py` lines 56-73: a one-byte
piecewise-linear log-scale duration codec.  Values above 0b0011_1110 map to
the legacy constant 500 ms; otherwise bits 4-5 select a scale and the low
4 bits are the multiplier.  (The Python `elif` chain is exhaustive for
`scale ∈ {0,1,2,3}`, which is forced by the `& 0b11` mask; the final
branch below is the `scale == 0b11` case.) -/
def decode_duration (x : Nat) : Nat :=
  if x > 62 then 500
  else
    let scale := (x >>> 4) &&& 3
    let mult := x &&& 15
    if scale = 0 then 0 + mult * 10
    else if scale = 1 then 200 + mult * 50
    else if scale = 2 then 1000 + mult * 100
    else 3000 + mult * 500

/-- The time/timezone part of the class-level decoding state of `Record`:
`Record._ts_base`, `Record._tocks`, `Record._tz_offset`, `Record._tz_known`.
Times are microseconds; `tocks` counts 1/64-second ticks and may go
negative through `TimeDeltaRecord`. -/
structure TState where
  ts_base : Int
  tocks : Int
  tz_offset : Int
  tz_known : Bool
deriving DecidableEq, Repr

/-- What a later record can observe of a previously decoded record through
`Record._rec` / `Record._prev_rec`: its class (determined by the type code,
via `Record.get_class`) and its derived timestamp `_ts` (absent when the
record was not timestamped and no decoder set it). -/
structure PrevInfo where
  rtype : Nat
  ts : Option Int
deriving DecidableEq, Repr

/-- The full class-level decoding state reset by `Record._reset`:
the time state, the byte position `Record._pos`, and `Record._rec`
(the previous record seen by the next record's `__init__`). -/
structure PState where
  t : TState
  pos : Nat
  prevRec : Option PrevInfo
deriving DecidableEq, Repr

/-- `Record._reset` (lines 100-106): initial decoding state. -/
def PState.reset : PState :=
  { t := { ts_base := TS_1999, tocks := 0, tz_offset := 0, tz_known := false },
    pos := 0,
    prevRec := none }

/-- A decoded record: the fields of the Python `Record` object that the
engine itself produces and that later decoding can depend on.  `ts` is the
derived absolute timestamp `_ts` (the `fields['ts']` value is its rendering,
empty when `ts = none`).  The per-kind decoded field dictionaries
(`fields['v']`) are pure functions of `data` and do not feed back into
decoding. -/
structure Rec where
  rtype : Nat
  name : String
  length : Nat
  timestamped : Bool
  data : List Nat
  raw : List Nat
  ts : Option Int
  pos : Nat
deriving DecidableEq, Repr

/-- Result of one `LogParser.get_record` call: a record plus the new state
and remaining cursor, a clean `OutOfData` (cursor empty at a record
boundary), or a `ParseError` (any exception while parsing a record body,
as wrapped by `Record.__init__`). -/
inductive StepResult where
  | ok (r : Rec) (s : PState) (rest : List Nat)
  | outOfData
  | parseError
deriving DecidableEq, Repr

/-- The default record name: the class name with the `Record` suffix
stripped (`Record.__init__` lines 138-146), `Unknown(c)` for codes with no
registered subclass, and `Unused` for the 0xFF sentinel pseudo-kind.
(The cosmetic rename of a `Reboot` record to `Shutdown` for reason code
128 only touches the display name and is not modelled.) -/
def kindName (c : Nat) : String :=
  match c with
  | 0 => "Erased"
  | 1 => "Timestamp"
  | 2 => "Reboot"
  | 3 => "Button"
  | 4 => "Zap"
  | 5 => "Connect"
  | 6 => "Disconnect"
  | 7 => "TimeDelta"
  | 8 => "Battery"
  | 9 => "Reconnect"
  | 10 => "Cat"
  | 11 => "Sleep"
  | 12 => "Bluetooth"
  | 13 => "SleepStart"
  | 14 => "SleepEnd"
  | 15 => "AlarmLoad"
  | 16 => "AlarmTrigger"
  | 17 => "AlarmSnooze"
  | 18 => "AlarmEnd"
  | 19 => "HdActive"
  | 20 => "HdInactive"
  | 21 => "Doubletap"
  | 22 => "FileDump"
  | 23 => "Config"
  | 24 => "DaqStart"
  | 25 => "JumpingJack"
  | 26 => "Vibe"
  | 27 => "Beep"
  | 28 => "BluetoothError"
  | 29 => "Steps"
  | 30 => "Energy"
  | 31 => "Fflags"
  | 34 => "Ancs"
  | 36 => "Crash"
  | 37 => "Ota"
  | 38 => "Uflags"
  | 39 => "Hflags"
  | 40 => "Temperature"
  | 41 => "Trace"
  | 42 => "Beacon"
  | 43 => "Stats"
  | 44 => "Critical"
  | 45 => "AlarmMisc"
  | 46 => "Error"
  | 47 => "ConfigPin"
  | 48 => "Dnd"
  | 49 => "Trigger"
  | 50 => "App"
  | 255 => "Unused"
  | n => "Unknown(" ++ toString n ++ ")"

/-- The timezone-offset update block shared verbatim between
`TimestampRecord.parse` (lines 246-253) and `BluetoothRecord.parse`
(lines 694-701): apply the new offset directly to `_ts_base` when the
offset was not yet known, otherwise apply only the delta against the
previously stored offset; store the new offset; mark it known. -/
def tzApply (t : TState) (tzo : Int) : TState :=
  if ¬ t.tz_known then
    { t with ts_base := t.ts_base + tzo, tz_offset := tzo, tz_known := true }
  else
    { t with ts_base := t.ts_base + (tzo - t.tz_offset), tz_offset := tzo }

/-- The per-kind decoder dispatch: the effect of `self.parse()` for the
`Record` subclass registered for type code `c` (via `Record.get_class`),
given the payload `data`, the framing-derived timestamp `ts0` (`self._ts`,
present iff the record was timestamped), the time state after framing, and
`Record._prev_rec` (the record before this one).  Returns `none` when the
Python body raises (which `Record.__init__` turns into `ParseError`),
otherwise the record's final `_ts` and the updated time state.

Success conditions are read off the Python bodies; for decoders with no
state effect only the condition is kept:
* 2 `Reboot`: `self.data[0]` needs ≥ 1 byte; the rest is total.
* 3 `Button`: `unpack_from('BB')` needs ≥ 2.
* 4 `Zap`: ≥ 9 bytes takes the full layout; a 1-byte payload is the skip
  code; payloads of 2-8 bytes raise (2-5: `struct.error` on the 6-byte
  unpack; 6-8: `NameError` on `b7` in the legacy branch) and the bare
  `except` then leaves names unbound for `extract`, raising `KeyError`.
* 5 `Connect`: `'<6sH'`, falling back to `'<6s'`: needs ≥ 6.
* 6 `Disconnect`: bare `except` catches everything: total.
* 8 `Battery`, 10 `Cat`: `'<H'` needs ≥ 2.
* 11 `Sleep`: `'<B'` needs ≥ 1; for length > 2, `'<BHL'` at offset 1
  needs ≥ 8.
* 15 `AlarmLoad`: length < 2 returns early; otherwise `self._ts` must
  exist (`AttributeError` when the record is not timestamped) and the
  alarm instant `self._ts + delta × 10 s` must stay inside the datetime
  range (`OverflowError` otherwise).
* 16 `AlarmTrigger`: needs ≥ 6 (`'BBBBBB'`).
* 22 `FileDump`: `'<BL'` needs ≥ 5.
* 23 `Config`: `'9B'` needs ≥ 9.
* 25 `JumpingJack`: `'<B3hhHhHHH'` needs ≥ 19.
* 26 `Vibe`: length 1 is the skip code, else `'<4B'` needs ≥ 4.
* 27 `Beep`: length 1 is the skip code, else `'<3B'` needs ≥ 3.
* 31 `Fflags`, 38 `Uflags`, 39 `Hflags`: any length other than 4 leaves
  `flags` unbound in the `return dict(...)`: `NameError`.
* 34 `Ancs`: sub-type byte 0 needs 8 more bytes (`'<BBBBL'`); empty and
  other sub-types are total.
* 36 `Crash`: length ≠ 12 leaves names unbound for `extract`: `KeyError`.
* 37 `Ota`: length ≠ 1 likewise.
* 40 `Temperature`: `'<h'` falling back to `'b'`: needs ≥ 1.
* 41 `Trace`: `'B'` needs ≥ 1; code 34 with length ≥ 3 raises `TypeError`
  in `ord(self.data[1:])`.
* 42 `Beacon`, 43 `Stats`, 45 `AlarmMisc`, 47 `ConfigPin`, 48 `Dnd`:
  need ≥ 1 byte; 49 `Trigger` needs ≥ 2.
* 0, 9, 13, 14, 17, 18, 19, 20, 21, 24, 28, 44, 46, 50, 255 and all
  unregistered codes (`UnknownRecord`): total, no state effect. -/
def kindParse (c : Nat) (data : List Nat) (ts0 : Option Int)
    (t : TState) (prev : Option PrevInfo) : Option (Option Int × TState) :=
  match c with
  | 1 =>
    -- TimestampRecord.parse (lines 243-266): `'<Lb'` falling back to `'<L'`;
    -- after the tz block the base is overwritten with the record's own
    -- absolute time plus the stored offset, and the tock counter resets.
    match data with
    | b0 :: b1 :: b2 :: b3 :: b4 :: _ =>
      let t1 := tzApply t (s8 b4 * USEC_PER_TZ_UNIT)
      let ts : Int := (u32le b0 b1 b2 b3 : Int) * 1000000 + t1.tz_offset
      some (some ts, { t1 with tocks := 0, ts_base := ts })
    | [b0, b1, b2, b3] =>
      let ts : Int := (u32le b0 b1 b2 b3 : Int) * 1000000 + t.tz_offset
      some (some ts, { t with tocks := 0, ts_base := ts })
    | _ => none
  | 2 => if 1 ≤ data.length then some (ts0, t) else none
  | 3 => if 2 ≤ data.length then some (ts0, t) else none
  | 4 =>
    -- ZapRecord.parse (lines 378-455): see the success table above.
    if 9 ≤ data.length ∨ data.length = 1 then some (ts0, t) else none
  | 5 => if 6 ≤ data.length then some (ts0, t) else none
  | 6 => some (ts0, t)
  | 7 =>
    -- TimeDeltaRecord.parse (lines 542-562): adds the signed delta
    -- (seconds × 64) to the running tock counter, then computes
    -- `now = _ts_base + timedelta(seconds=_tocks/64)` for display, which
    -- raises OverflowError (→ ParseError) when the new accumulated time
    -- leaves the datetime range.  The record's own displayed timestamp
    -- is deliberately NOT rewritten (the override is commented out in
    -- the source).
    match data with
    | b0 :: b1 :: b2 :: b3 :: _ =>
      let tocks := t.tocks + s32 (u32le b0 b1 b2 b3) * 64
      if t.ts_base + tocks * USEC_PER_TOCK < DT_MIN_USEC ∨
          DT_MAX_USEC < t.ts_base + tocks * USEC_PER_TOCK then none
      else some (ts0, { t with tocks := tocks })
    | _ => none
  | 8 => if 2 ≤ data.length then some (ts0, t) else none
  | 10 => if 2 ≤ data.length then some (ts0, t) else none
  | 11 =>
    if data.length = 1 ∨ data.length = 2 ∨ 8 ≤ data.length then some (ts0, t)
    else none
  | 12 =>
    -- BluetoothRecord.parse (lines 679-709): a 1005 time-set sub-payload
    -- (first byte 29) carries an optional tz offset in payload byte 8;
    -- `struct.unpack('b', self.data[8:9])` succeeds only when ≥ 9 bytes
    -- are present, else the `struct.error` is swallowed.  Note: no new
    -- base time is taken from the payload and the tock counter is NOT
    -- reset.
    match data with
    | [] => none
    | h :: _ =>
      if h = 29 then
        match data[8]? with
        | some b8 => some (ts0, tzApply t (s8 b8 * USEC_PER_TZ_UNIT))
        | none => some (ts0, t)
      else some (ts0, t)
  | 15 =>
    -- AlarmLoadRecord.parse (lines 732-755): `'<HH'` and `'<H'` both read
    -- the delta from the first two payload bytes; `self._ts` raises
    -- AttributeError when the record is not timestamped, and
    -- `self._ts + dtime` (dtime = delta × 10 s) raises OverflowError when
    -- the alarm instant leaves the datetime range.  The `fromtimestamp`
    -- rendering that follows is caught for OSError only, but its success
    -- within a minute of the range boundaries depends on the host's
    -- local timezone; per the modelling conventions it is treated as
    -- success.
    if data.length < 2 then some (ts0, t)
    else
      match ts0, data with
      | some ts, d0 :: d1 :: _ =>
        if ts + (u16le d0 d1 : Int) * 10 * 1000000 < DT_MIN_USEC ∨
            DT_MAX_USEC < ts + (u16le d0 d1 : Int) * 10 * 1000000 then none
        else some (ts0, t)
      | _, _ => none
  | 16 => if 6 ≤ data.length then some (ts0, t) else none
  | 22 => if 5 ≤ data.length then some (ts0, t) else none
  | 23 => if 9 ≤ data.length then some (ts0, t) else none
  | 25 => if 19 ≤ data.length then some (ts0, t) else none
  | 26 => if data.length = 1 ∨ 4 ≤ data.length then some (ts0, t) else none
  | 27 => if data.length = 1 ∨ 3 ≤ data.length then some (ts0, t) else none
  | 29 =>
    -- StepsRecord.parse (lines 1002-1022): clone the EnergyRecord's
    -- timestamp when one was the immediately preceding real record
    -- (`isinstance(Record._prev_rec, EnergyRecord)`); accessing `._ts`
    -- raises AttributeError when that record carried none.  Then
    -- `'<HB'` needs ≥ 3 bytes.
    match
      (match prev with
       | some p =>
         if p.rtype = 30 then
           match p.ts with
           | some ets => some (some ets)
           | none => none
         else some ts0
       | none => some ts0) with
    | none => none
    | some ts1 => if 3 ≤ data.length then some (ts1, t) else none
  | 30 => some (ts0, t)
  | 31 => if data.length = 4 then some (ts0, t) else none
  | 34 =>
    match data with
    | [] => some (ts0, t)
    | h :: rest =>
      if h = 0 then (if 8 ≤ rest.length then some (ts0, t) else none)
      else some (ts0, t)
  | 36 => if data.length = 12 then some (ts0, t) else none
  | 37 => if data.length = 1 then some (ts0, t) else none
  | 38 => if data.length = 4 then some (ts0, t) else none
  | 39 => if data.length = 4 then some (ts0, t) else none
  | 40 => if 1 ≤ data.length then some (ts0, t) else none
  | 41 =>
    match data with
    | [] => none
    | h :: rest =>
      if h = 34 ∧ 2 ≤ rest.length then none else some (ts0, t)
  | 42 => if 1 ≤ data.length then some (ts0, t) else none
  | 43 => if 1 ≤ data.length then some (ts0, t) else none
  | 45 => if 1 ≤ data.length then some (ts0, t) else none
  | 47 => if 1 ≤ data.length then some (ts0, t) else none
  | 48 => if 1 ≤ data.length then some (ts0, t) else none
  | 49 => if 2 ≤ data.length then some (ts0, t) else none
  | _ => some (ts0, t)

/-- The tail of `Record._parse` after the length/flags byte and optional
tick delta have been read (lines 176-197): take the payload (`src[:length]`
truncates silently when short), advance `Record._pos` by the bytes
consumed, run the kind decoder, and store this record as `Record._rec` for
the next one (set in `Record.__init__` before parsing; observable by the
next record). -/
def frameData (c : Nat) (nm : String) (s : PState) (t1 : TState)
    (ts0 : Option Int) (tsFlag : Bool) (len : Nat) (rawHead : List Nat)
    (src : List Nat) : StepResult :=
  let data := src.take len
  let rest := src.drop len
  let raw := rawHead ++ data
  match kindParse c data ts0 t1 s.prevRec with
  | none => .parseError
  | some (ts, t2) =>
    .ok
      { rtype := c, name := nm, length := len, timestamped := tsFlag,
        data := data, raw := raw, ts := ts, pos := s.pos }
      { t := t2, pos := s.pos + raw.length, prevRec := some { rtype := c, ts := ts } }
      rest

/-- `Record._parse` (lines 156-197) for a record whose type byte `c` has
already been popped: pop the length/flags byte (low 7 bits = payload
length, high bit = timestamped), optionally pop a 2-byte little-endian
tick delta, accumulate it into the tock counter and derive the timestamp
`_ts_base + tocks/64 s` (line 174; raises OverflowError → ParseError when
that instant leaves the datetime range), then hand off to `frameData`.
An empty cursor raises `OutOfData` and a short tick delta raises
`struct.error` → `OutOfData`, but both surface as `ParseError` because
`Record.__init__` (lines 148-153) wraps every exception from `_parse`. -/
def genericFrame (c : Nat) (nm : String) (s : PState) (src : List Nat) :
    StepResult :=
  match src with
  | [] => .parseError
  | b :: src1 =>
    let len := b &&& 127
    if b &&& 128 ≠ 0 then
      match src1 with
      | b0 :: b1 :: src2 =>
        let tocks := s.t.tocks + u16le b0 b1
        let ts : Int := s.t.ts_base + tocks * USEC_PER_TOCK
        if ts < DT_MIN_USEC ∨ DT_MAX_USEC < ts then .parseError
        else
          frameData c nm s { s.t with tocks := tocks } (some ts) true len
            [c, b, b0, b1] src2
      | _ => .parseError
    else
      frameData c nm s s.t none false len [c, b] src1

/-- `UnusedRecord._parse` (lines 1590-1629), reached when the type byte is
the 0xFF erased-flash sentinel: greedily pop consecutive 0xFF bytes.  The
loop pops before testing, so a run that reaches the end of the buffer hits
`IndexError` on the empty cursor (→ `ParseError`).  Otherwise, when the
stop position (`_pos` at entry + bytes consumed, type byte included) is an
exact multiple of 4096-16, emit one synthetic padding record carrying only
the erased-byte count (no timestamp, no state effect); when misaligned,
re-inject the consumed bytes minus the type byte and re-run the generic
path with the name forced to `LostRecord`.  In both branches
`UnusedRecord.__init__` (lines 1580-1587) restores `Record._rec`, so this
record never becomes the previous record. -/
def stepUnused (s : PState) (src : List Nat) : StepResult :=
  let run := src.takeWhile (fun b => b == 255)
  let rest := src.dropWhile (fun b => b == 255)
  match rest with
  | [] => .parseError
  | _ =>
    if (s.pos + (1 + run.length)) % SECTOR_USABLE = 0 then
      let raw := 255 :: run
      .ok
        { rtype := 255, name := "Unused", length := raw.length,
          timestamped := false, data := [], raw := raw, ts := none,
          pos := s.pos }
        { s with pos := s.pos + raw.length }
        rest
    else
      match genericFrame 255 "LostRecord" s (run ++ rest) with
      | .ok r s1 rest1 => .ok r { s1 with prevRec := s.prevRec } rest1
      | e => e

/-- `LogParser.get_record` (lines 1731-1739): pop the type byte (empty
cursor is the clean `OutOfData`), look up the record class
(`Record.get_class`; 0xFF is registered to `UnusedRecord`) and parse one
record. -/
def stepRecord (s : PState) (src : List Nat) : StepResult :=
  match src with
  | [] => .outOfData
  | c :: src1 =>
    if c = 255 then stepUnused s src1
    else genericFrame c (kindName c) s src1

/-- The driver loop of `LogParser.parse` (lines 1762-1774), fuelled: yields
records until a clean `OutOfData` (second component `true`) or a
`ParseError` (second component `false`; the records already yielded are
kept, matching the generator semantics). -/
def parseLoop : Nat → PState → List Nat → List Rec × Bool
  | 0, _, _ => ([], false)
  | Nat.succ fuel, s, src =>
    match stepRecord s src with
    | .outOfData => ([], true)
    | .parseError => ([], false)
    | .ok r s1 rest =>
      let p := parseLoop fuel s1 rest
      (r :: p.1, p.2)

/-- Transfer-header stripping at the top of `LogParser.parse` (lines
1745-1756): a 10-byte `'<BBLL'` prefix with magic byte 0b1000010, a zero
byte, a nonzero 4-byte field and a 4-byte field under 4096×10 is dropped;
anything else (including a buffer shorter than 10 bytes, where
`struct.unpack_from` raises and the exception is swallowed) is kept. -/
def stripHeader (data : List Nat) : List Nat :=
  match data with
  | f0 :: f1 :: a0 :: a1 :: a2 :: a3 :: c0 :: c1 :: c2 :: c3 :: rest =>
    if f0 = 0b1000010 ∧ f1 = 0 ∧ u32le a0 a1 a2 a3 ≠ 0 ∧
        u32le c0 c1 c2 c3 < 4096 * 10 then rest
    else data
  | _ => data

/-- `LogParser.parse` (lines 1742-1774): reset the decoding state, strip a
transfer header when present, then run the record loop over the whole
buffer.  Each successful step consumes at least the type byte, so
`length + 1` fuel always suffices. -/
def LogParser.parse (data : List Nat) : List Rec × Bool :=
  let d := stripHeader data
  parseLoop (d.length + 1) PState.reset d

/-- The raw little-endian tick delta of a framed record, read back from
its raw bytes (positions 2 and 3, after the type and length/flags bytes). -/
def tockDelta (raw : List Nat) : Nat := u16le (raw.getD 2 0) (raw.getD 3 0)

/-- A buffer split into validly framed records: starting from state `s`,
each chunk is consumed exactly by one framing step (complete payload, no
0xFF sentinel run, derived timestamps inside the datetime range, and the
record-kind decoder succeeds), producing the listed records and ending in
state `s2`. -/
inductive Frames : PState → List (List Nat) → List Rec → PState → Prop where
  | nil (s : PState) : Frames s [] [] s
  | cons {s : PState} {c : List Nat} {r : Rec} {s1 : PState}
      {cs : List (List Nat)} {rs : List Rec} {s2 : PState} :
      stepRecord s c = .ok r s1 [] →
      r.data.length = r.length →
      c.head? ≠ some 255 →
      Frames s1 cs rs s2 →
      Frames s (c :: cs) (r :: rs) s2

/-! ## Basic facts about the step function -/

/-- Every byte of a sentinel run is taken by the greedy consumption loop,
and consumption stops exactly at the first non-sentinel byte. -/
theorem takeWhile_sentinel (run : List Nat) (b : Nat) (rest : List Nat)
    (hrun : ∀ x ∈ run, x = 255) (hb : b ≠ 255) :
    (run ++ b :: rest).takeWhile (fun x => x == 255) = run ∧
    (run ++ b :: rest).dropWhile (fun x => x == 255) = b :: rest := by
  induction run with
  | nil =>
    simp [List.takeWhile_cons, List.dropWhile_cons, hb]
  | cons a l ih =>
    have ha : a = 255 := hrun a (by simp)
    have hl : ∀ x ∈ l, x = 255 := fun x hx => hrun x (by simp [hx])
    obtain ⟨h1, h2⟩ := ih hl
    subst ha
    simp [List.takeWhile_cons, List.dropWhile_cons, h1, h2]

/-- Reduction of the generic framing path on a timestamped length/flags
byte with both tick-delta bytes present: the in-range check on the
derived timestamp, then the payload phase. -/
theorem genericFrame_cons_ts (c : Nat) (nm : String) (s : PState)
    (b b0 b1 : Nat) (src2 : List Nat) (hts : b &&& 128 ≠ 0) :
    genericFrame c nm s (b :: b0 :: b1 :: src2) =
      if s.t.ts_base + (s.t.tocks + (u16le b0 b1 : Int)) * USEC_PER_TOCK
            < DT_MIN_USEC ∨
          DT_MAX_USEC
            < s.t.ts_base + (s.t.tocks + (u16le b0 b1 : Int)) * USEC_PER_TOCK
      then .parseError
      else
        frameData c nm s { s.t with tocks := s.t.tocks + (u16le b0 b1 : Int) }
          (some (s.t.ts_base + (s.t.tocks + (u16le b0 b1 : Int)) * USEC_PER_TOCK))
          true (b &&& 127) [c, b, b0, b1] src2 := by
  simp [genericFrame, hts]

/-- Reduction of the generic framing path on a non-timestamped
length/flags byte: straight to the payload phase. -/
theorem genericFrame_cons_plain (c : Nat) (nm : String) (s : PState)
    (b : Nat) (src1 : List Nat) (hts : b &&& 128 = 0) :
    genericFrame c nm s (b :: src1) =
      frameData c nm s s.t none false (b &&& 127) [c, b] src1 := by
  simp [genericFrame, hts]

/-- A successful payload phase returns a record of the dispatched type
code, carrying the dispatched name, and installs itself as the previous
record. -/
theorem frameData_ok_inv (c : Nat) (nm : String) (s : PState) (t1 : TState)
    (ts0 : Option Int) (tsFlag : Bool) (len : Nat) (rawHead : List Nat)
    (src : List Nat) (r : Rec) (s1 : PState) (rest : List Nat)
    (h : frameData c nm s t1 ts0 tsFlag len rawHead src = .ok r s1 rest) :
    r.rtype = c ∧ r.name = nm ∧ s1.prevRec = some ⟨c, r.ts⟩ := by
  simp only [frameData] at h
  split at h
  · simp at h
  · simp only [StepResult.ok.injEq] at h
    obtain ⟨h1, h2, h3⟩ := h
    subst h1; subst h2
    exact ⟨rfl, rfl, rfl⟩

/-- A successful generic framing returns a record of the dispatched type
code, carrying the dispatched name, and installs itself as the previous
record. -/
theorem genericFrame_ok_inv (c : Nat) (nm : String) (s : PState)
    (src : List Nat) (r : Rec) (s1 : PState) (rest : List Nat)
    (h : genericFrame c nm s src = .ok r s1 rest) :
    r.rtype = c ∧ r.name = nm ∧ s1.prevRec = some ⟨c, r.ts⟩ := by
  cases src with
  | nil => simp [genericFrame] at h
  | cons b src1 =>
    by_cases hts : b &&& 128 ≠ 0
    · cases src1 with
      | nil => simp [genericFrame, hts] at h
      | cons b0 s2 =>
        cases s2 with
        | nil => simp [genericFrame, hts] at h
        | cons b1 src2 =>
          rw [genericFrame_cons_ts c nm s b b0 b1 src2 hts] at h
          split at h
          · simp at h
          · exact frameData_ok_inv _ _ _ _ _ _ _ _ _ _ _ _ h
    · rw [genericFrame_cons_plain c nm s b src1 (not_ne_iff.mp hts)] at h
      exact frameData_ok_inv _ _ _ _ _ _ _ _ _ _ _ _ h

/-- Claim C10: the previous-record reference kept in the decoding state
always names the last normally framed record: a record produced through
the 0xFF corruption-recovery path (both the sector-aligned padding record
and a misaligned run reframed as a `LostRecord`, i.e. any record with type
code 0xFF) never becomes `Record._rec`, while every normally framed
record does.  Hence the cross-record timestamp borrowing of
`StepsRecord` skips over lost/incomplete records as well as padding. -/
theorem stepRecord_prevRec (s : PState) (src : List Nat) (r : Rec)
    (s1 : PState) (rest : List Nat)
    (h : stepRecord s src = .ok r s1 rest) :
    s1.prevRec = if r.rtype = 255 then s.prevRec else some ⟨r.rtype, r.ts⟩ := by
  cases src with
  | nil => simp [stepRecord] at h
  | cons c src1 =>
    simp only [stepRecord] at h
    split at h
    · rename_i hc
      simp only [stepUnused] at h
      split at h
      · simp at h
      · split at h
        · simp only [StepResult.ok.injEq] at h
          obtain ⟨h1, h2, h3⟩ := h
          subst h1; subst h2
          simp
        · split at h
          · rename_i r0 s10 rest1 heq
            have hr := genericFrame_ok_inv _ _ _ _ _ _ _ heq
            simp only [StepResult.ok.injEq] at h
            obtain ⟨h1, h2, h3⟩ := h
            subst h1; subst h2
            simp [hr.1]
          · rename_i hne
            exact absurd h (hne r s1 rest)
    · rename_i hc
      have hr := genericFrame_ok_inv _ _ _ _ _ _ _ h
      rw [if_neg (by rw [hr.1]; exact hc)]
      rw [hr.2.2, hr.1]

/-- Witness for `stepRecord_prevRec`: a normally framed Reboot record
becomes the previous record. -/
theorem stepRecord_prevRec_witness :
    (stepRecord PState.reset [2, 1, 0] =
      .ok
        { rtype := 2, name := "Reboot", length := 1, timestamped := false,
          data := [0], raw := [2, 1, 0], ts := none, pos := 0 }
        { t := PState.reset.t, pos := 3, prevRec := some ⟨2, none⟩ }
        []) ∧
    ({ t := PState.reset.t, pos := 3, prevRec := some ⟨2, none⟩ } : PState).prevRec
      = if ({ rtype := 2, name := "Reboot", length := 1, timestamped := false,
              data := [0], raw := [2, 1, 0], ts := none, pos := 0 } : Rec).rtype = 255
        then PState.reset.prevRec else some ⟨2, none⟩ :=
  ⟨by decide,
    stepRecord_prevRec PState.reset [2, 1, 0]
      { rtype := 2, name := "Reboot", length := 1, timestamped := false,
        data := [0], raw := [2, 1, 0], ts := none, pos := 0 }
      { t := PState.reset.t, pos := 3, prevRec := some ⟨2, none⟩ }
      [] (by decide)⟩

set_option maxRecDepth 4096 in
/-- Claim C4: `decode_duration` is a pure total function over all 256 byte
values: for every byte `b`, if `b > 62` the result is 500 ms; otherwise,
with scale = bits 4-5 and mult = low 4 bits, the result is
base + mult × step with (base, step) = (0,10), (200,50), (1000,100),
(3000,500) for scales 0-3; in particular 0x00 → 0 ms, 0x0F → 150 ms,
0x10 → 200 ms, 0x3F → 500 ms. -/
theorem decode_duration_table (b : Nat) (hb : b < 256) :
    (decode_duration b =
      if b > 62 then 500
      else
        match (b >>> 4) &&& 3 with
        | 0 => 0 + (b &&& 15) * 10
        | 1 => 200 + (b &&& 15) * 50
        | 2 => 1000 + (b &&& 15) * 100
        | _ => 3000 + (b &&& 15) * 500) ∧
    decode_duration 0x00 = 0 ∧ decode_duration 0x0F = 150 ∧
    decode_duration 0x10 = 200 ∧ decode_duration 0x3F = 500 := by
  refine ⟨?_, by decide, by decide, by decide, by decide⟩
  revert hb
  revert b
  decide

/-- Witness for `decode_duration_table` at byte 0x0F. -/
theorem decode_duration_table_witness :
    (15 : Nat) < 256 ∧
    ((decode_duration 15 =
      if 15 > 62 then 500
      else
        match ((15 : Nat) >>> 4) &&& 3 with
        | 0 => 0 + ((15 : Nat) &&& 15) * 10
        | 1 => 200 + ((15 : Nat) &&& 15) * 50
        | 2 => 1000 + ((15 : Nat) &&& 15) * 100
        | _ => 3000 + ((15 : Nat) &&& 15) * 500) ∧
    decode_duration 0x00 = 0 ∧ decode_duration 0x0F = 150 ∧
    decode_duration 0x10 = 200 ∧ decode_duration 0x3F = 500) :=
  ⟨by decide, decode_duration_table 15 (by decide)⟩

/-- Counterexample to claim C2: for a 5-byte time-sync (type 1) payload
decoded with `tz_known` already true, the claim says only the delta
between the new and previously stored offsets is added to `tick_base`.
Concretely, with `ts_base = 0`, stored offset +1 h and new offset byte
0xFC (−4 × 15 min = −1 h), the claimed new base would be
0 + (−3600 − 3600) s = −7200 s; the code instead ends with
`ts_base = value + new_offset = 0 − 3600 s`, because lines 257-260
overwrite the base with the record's own absolute time. -/
theorem timestamp_tz_delta_counterexample :
    (kindParse 1 [0, 0, 0, 0, 252] none
        { ts_base := 0, tocks := 5, tz_offset := 3600000000, tz_known := true }
        none).map (fun p => p.2.ts_base) = some (-3600000000) ∧
    (-3600000000 : Int) ≠ 0 + (-3600000000 - 3600000000) := by decide

/-- Claim C2 (amended): for a type-1 time-sync record with a 5-byte
payload, whatever the previous timezone state, the direct-vs-delta
adjustment of `ts_base` performed by the tz block is immediately
overwritten: the final state has `ts_base` equal to the record's own
absolute time value plus the newly stored offset, `tz_offset` equal to
the new offset (offset byte × 900 s), `tz_known` true and the tock
accumulator reset to 0; the record's derived timestamp equals this new
base.  (The direct-vs-delta distinction therefore has no effect on the
final state of a type-1 record; it is observable only through the
Bluetooth time-set record, which does not overwrite the base.) -/
theorem timestamp_record_effect (b0 b1 b2 b3 b4 : Nat) (extra : List Nat)
    (ts0 : Option Int) (t : TState) (prev : Option PrevInfo) :
    kindParse 1 (b0 :: b1 :: b2 :: b3 :: b4 :: extra) ts0 t prev =
      some (some ((u32le b0 b1 b2 b3 : Int) * 1000000 + s8 b4 * USEC_PER_TZ_UNIT),
        { ts_base := (u32le b0 b1 b2 b3 : Int) * 1000000 + s8 b4 * USEC_PER_TZ_UNIT,
          tocks := 0,
          tz_offset := s8 b4 * USEC_PER_TZ_UNIT,
          tz_known := true }) := by
  by_cases h : t.tz_known <;>
    simp [kindParse, tzApply, h]

/-- Counterexample to claim C6: a Bluetooth-passthrough record (type 12)
carrying the device time-set sub-payload (first byte 29) with offset byte
+4 does NOT reset `tick_accum` to 0 and does not take a new `tick_base`
from the payload: with 100 accumulated tocks the state after decoding
still holds 100 tocks, and `ts_base` merely moved by the offset. -/
theorem bluetooth_time_set_counterexample :
    kindParse 12 [29, 0, 0, 0, 0, 0, 0, 0, 4] none
        { ts_base := 77, tocks := 100, tz_offset := 0, tz_known := false }
        none =
      some (none,
        { ts_base := 77 + 3600000000, tocks := 100,
          tz_offset := 3600000000, tz_known := true }) ∧
    (100 : Int) ≠ 0 := by decide

/-- Claim C6 (amended): a Bluetooth-passthrough record (type 12) whose
payload starts with the time-set command byte 29 and has at least 9 bytes
applies the timezone offset byte (payload[8], signed, × 900 s) to
`ts_base` under the `tz_known` direct-vs-delta rule and stores it — but,
unlike the dedicated time-sync kind, it does not supply a new `tick_base`
from the payload's time value and does not reset `tick_accum`; the
record's own derived timestamp is left as framed. -/
theorem bluetooth_time_set_effect (d1 d2 d3 d4 d5 d6 d7 b8 : Nat)
    (extra : List Nat) (ts0 : Option Int) (t : TState)
    (prev : Option PrevInfo) :
    kindParse 12 (29 :: d1 :: d2 :: d3 :: d4 :: d5 :: d6 :: d7 :: b8 :: extra)
        ts0 t prev =
      some (ts0, tzApply t (s8 b8 * USEC_PER_TZ_UNIT)) ∧
    (tzApply t (s8 b8 * USEC_PER_TZ_UNIT)).tocks = t.tocks ∧
    (tzApply t (s8 b8 * USEC_PER_TZ_UNIT)).ts_base =
      (if ¬ t.tz_known then t.ts_base + s8 b8 * USEC_PER_TZ_UNIT
       else t.ts_base + (s8 b8 * USEC_PER_TZ_UNIT - t.tz_offset)) := by
  refine ⟨by simp [kindParse], ?_, ?_⟩ <;>
    by_cases h : t.tz_known <;> simp [tzApply, h]

/-- Claim C9: the code, evaluated at the failing input.  A stimulus/zap
record (type 4) with a 6-byte payload — the legacy layout lacking the
optional trailing sub-fields — does NOT degrade to the legacy field set:
`ZapRecord.parse` reaches `minv = b7 * 2` inside the `rec_ver <= 0`
branch with `b7` unbound (it is only assigned in the ≥ 9-byte branch),
raising `NameError`; the bare `except` swallows it and `extract` then
raises `KeyError` on the never-assigned `charged`, so the record aborts
the stream with `ParseError` instead of producing the legacy fields. -/
theorem zap_six_byte_payload_parse_error :
    stepRecord PState.reset [4, 6, 10, 20, 30, 40, 50, 60] = .parseError ∧
    kindParse 4 [10, 20, 30, 40, 50, 60] none PState.reset.t none = none := by
  decide

/-- Counterexample to claim C7: a record framed with length byte L = 5 but
no payload bytes left does not raise a DecodeFailure: the payload slice
truncates silently (`src[:5]` on an empty bytearray), the type-0 record
decodes, and the stream ends cleanly having yielded it. -/
theorem short_payload_counterexample :
    LogParser.parse [0, 5] =
      ([{ rtype := 0, name := "Erased", length := 5, timestamped := false,
          data := [], raw := [0, 5], ts := none, pos := 0 }], true) ∧
    ([{ rtype := 0, name := "Erased", length := 5, timestamped := false,
        data := [], raw := [0, 5], ts := none, pos := 0 }] : List Rec).length
      = 1 := by decide

/-- Claim C7 (amended): when fewer than L payload bytes remain (L = low
7 bits of the length/flags byte), the framer does not fail on the short
payload itself: the payload is truncated to the remaining bytes and the
cursor is fully drained, so the rest of the record body decides the
outcome — a DecodeFailure (a kind with a mandatory minimum length, or,
for a timestamped record, a derived timestamp outside the datetime
range), or a final record; in either case the cursor is exhausted and the
stream decoder emits zero further records after this one.  Stated for
both framing shapes: a non-timestamped record with fewer than L bytes
left, and a timestamped record whose 2-byte tick delta is complete but
whose remaining payload is short. -/
theorem short_payload_framing (s : PState) (c b : Nat) (rest : List Nat)
    (hc : c ≠ 255) :
    (b &&& 128 = 0 → rest.length < b &&& 127 →
      (stepRecord s (c :: b :: rest) = .parseError ∧
        kindParse c rest none s.t s.prevRec = none) ∨
      (∃ r s1, stepRecord s (c :: b :: rest) = .ok r s1 [] ∧ r.data = rest ∧
        kindParse c rest none s.t s.prevRec = some (r.ts, s1.t))) ∧
    (∀ b0 b1 rest2, rest = b0 :: b1 :: rest2 → b &&& 128 ≠ 0 →
      rest2.length < b &&& 127 →
      stepRecord s (c :: b :: rest) = .parseError ∨
      (∃ r s1, stepRecord s (c :: b :: rest) = .ok r s1 [] ∧
        r.data = rest2 ∧ r.timestamped = true ∧
        kindParse c rest2
          (some (s.t.ts_base +
            (s.t.tocks + (u16le b0 b1 : Int)) * USEC_PER_TOCK))
          { s.t with tocks := s.t.tocks + (u16le b0 b1 : Int) } s.prevRec
          = some (r.ts, s1.t))) := by
  constructor
  · intro hts hshort
    have htake : rest.take (b &&& 127) = rest :=
      List.take_of_length_le (le_of_lt hshort)
    have hdrop : rest.drop (b &&& 127) = [] :=
      List.drop_eq_nil_of_le (le_of_lt hshort)
    rw [show stepRecord s (c :: b :: rest)
        = genericFrame c (kindName c) s (b :: rest) from by
      simp [stepRecord, hc]]
    rw [genericFrame_cons_plain c (kindName c) s b rest hts]
    simp only [frameData, htake, hdrop]
    cases hk : kindParse c rest none s.t s.prevRec with
    | none => exact Or.inl ⟨rfl, rfl⟩
    | some v =>
      obtain ⟨ts, t2⟩ := v
      exact Or.inr ⟨_, _, rfl, rfl, rfl⟩
  · intro b0 b1 rest2 hrest hts hshort
    subst hrest
    have htake : rest2.take (b &&& 127) = rest2 :=
      List.take_of_length_le (le_of_lt hshort)
    have hdrop : rest2.drop (b &&& 127) = [] :=
      List.drop_eq_nil_of_le (le_of_lt hshort)
    rw [show stepRecord s (c :: b :: b0 :: b1 :: rest2)
        = genericFrame c (kindName c) s (b :: b0 :: b1 :: rest2) from by
      simp [stepRecord, hc]]
    rw [genericFrame_cons_ts c (kindName c) s b b0 b1 rest2 hts]
    by_cases hguard :
        (s.t.ts_base + (s.t.tocks + (u16le b0 b1 : Int)) * USEC_PER_TOCK
            < DT_MIN_USEC ∨
          DT_MAX_USEC
            < s.t.ts_base + (s.t.tocks + (u16le b0 b1 : Int)) * USEC_PER_TOCK)
    · rw [if_pos hguard]
      exact Or.inl rfl
    · rw [if_neg hguard]
      simp only [frameData, htake, hdrop]
      cases hk : kindParse c rest2
          (some (s.t.ts_base +
            (s.t.tocks + (u16le b0 b1 : Int)) * USEC_PER_TOCK))
          { s.t with tocks := s.t.tocks + (u16le b0 b1 : Int) }
          s.prevRec with
      | none => exact Or.inl rfl
      | some v =>
        obtain ⟨ts, t2⟩ := v
        exact Or.inr ⟨_, _, rfl, rfl, rfl, rfl⟩

/-- Witness for `short_payload_framing`: type byte 0, timestamped
length/flags byte 0x85 (L = 5), a complete 2-byte tick delta and no
payload bytes remaining. -/
theorem short_payload_framing_witness :
    ((0 : Nat) ≠ 255) ∧
    (((133 : Nat) &&& 128 = 0 → ([1, 0] : List Nat).length < 133 &&& 127 →
        (stepRecord PState.reset [0, 133, 1, 0] = .parseError ∧
          kindParse 0 [1, 0] none PState.reset.t PState.reset.prevRec
            = none) ∨
        (∃ r s1, stepRecord PState.reset [0, 133, 1, 0] = .ok r s1 [] ∧
          r.data = [1, 0] ∧
          kindParse 0 [1, 0] none PState.reset.t PState.reset.prevRec
            = some (r.ts, s1.t))) ∧
      (∀ b0 b1 rest2, ([1, 0] : List Nat) = b0 :: b1 :: rest2 →
        (133 : Nat) &&& 128 ≠ 0 → rest2.length < 133 &&& 127 →
        stepRecord PState.reset [0, 133, 1, 0] = .parseError ∨
        (∃ r s1, stepRecord PState.reset [0, 133, 1, 0] = .ok r s1 [] ∧
          r.data = rest2 ∧ r.timestamped = true ∧
          kindParse 0 rest2
            (some (PState.reset.t.ts_base +
              (PState.reset.t.tocks + (u16le b0 b1 : Int)) * USEC_PER_TOCK))
            { PState.reset.t with
              tocks := PState.reset.t.tocks + (u16le b0 b1 : Int) }
            PState.reset.prevRec
            = some (r.ts, s1.t)))) :=
  ⟨by decide, short_payload_framing PState.reset 0 133 [1, 0] (by decide)⟩

/-- Counterexample to claim C8: a timestamped record (length/flags byte
0x80) with fewer than 2 bytes remaining for the tick delta is NOT the
clean end-of-stream condition: `Record.__init__` wraps the internally
raised `OutOfData` in `ParseError`, so the stream decoder reports a
decode failure (second component `false`), not a clean end. -/
theorem truncated_tick_delta_counterexample :
    LogParser.parse [2, 128] = ([], false) ∧ (false ≠ true) := by decide

/-- Claim C8 (amended): when the length/flags byte has the timestamped
bit set and fewer than 2 bytes remain for the little-endian tick delta,
`Record._parse` raises `OutOfData` internally (from `struct.error`), but
`Record.__init__` converts every exception from `_parse` into
`ParseError`, so the step is a decode failure — not the clean
end-of-stream, which only arises when the cursor is exhausted before the
type byte; the stream decoder run on such a buffer accordingly yields no
record and reports the failure. -/
theorem truncated_tick_delta_framing (s : PState) (c b : Nat)
    (rest : List Nat) (hc : c ≠ 255) (hts : b &&& 128 ≠ 0)
    (hshort : rest.length < 2) :
    stepRecord s (c :: b :: rest) = .parseError ∧
    LogParser.parse (c :: b :: rest) = ([], false) := by
  have hstep : ∀ s' : PState, stepRecord s' (c :: b :: rest) = .parseError := by
    intro s'
    match rest, hshort with
    | [], _ => simp [stepRecord, genericFrame, if_neg hc, hts]
    | [x], _ => simp [stepRecord, genericFrame, if_neg hc, hts]
  refine ⟨hstep s, ?_⟩
  match rest, hshort with
  | [], _ =>
    have hstrip : stripHeader [c, b] = [c, b] := rfl
    simp only [LogParser.parse, hstrip]
    rw [show ([c, b] : List Nat).length + 1 = Nat.succ 2 from rfl]
    rw [parseLoop, hstep PState.reset]
  | [x], _ =>
    have hstrip : stripHeader [c, b, x] = [c, b, x] := rfl
    simp only [LogParser.parse, hstrip]
    rw [show ([c, b, x] : List Nat).length + 1 = Nat.succ 3 from rfl]
    rw [parseLoop, hstep PState.reset]

/-- Witness for `truncated_tick_delta_framing`: a timestamped type-2
record with a one-byte cursor remainder. -/
theorem truncated_tick_delta_framing_witness :
    ((2 : Nat) ≠ 255 ∧ (128 : Nat) &&& 128 ≠ 0 ∧ ([7] : List Nat).length < 2) ∧
    (stepRecord PState.reset [2, 128, 7] = .parseError ∧
      LogParser.parse [2, 128, 7] = ([], false)) :=
  ⟨⟨by decide, by decide, by decide⟩,
    truncated_tick_delta_framing PState.reset 2 128 [7] (by decide)
      (by decide) (by decide)⟩

/-- Claim C5: for a step-count record (type 29): if the immediately
preceding real record (per `Record._prev_rec`, which synthetic 0xFF
records never become) is an energy record (type 30) with timestamp `ets`,
the step-count record's derived timestamp equals `ets` exactly; if the
preceding real record is of any other kind, its timestamp is computed
normally from its own framing (base + accumulated tocks including its own
delta), or absent when it is not timestamped. -/
theorem steps_timestamp_borrowing (s : PState) (src1 : List Nat) (r : Rec)
    (s1 : PState) (rest : List Nat)
    (h : stepRecord s (29 :: src1) = .ok r s1 rest) :
    (∀ ets, s.prevRec = some ⟨30, some ets⟩ → r.ts = some ets) ∧
    (∀ p, s.prevRec = some p → p.rtype ≠ 30 →
      r.ts = if r.timestamped
             then some (s.t.ts_base +
               (s.t.tocks + (tockDelta r.raw : Int)) * USEC_PER_TOCK)
             else none) := by
  rw [show stepRecord s (29 :: src1) = genericFrame 29 (kindName 29) s src1
    from by simp [stepRecord]] at h
  cases src1 with
  | nil => simp [genericFrame] at h
  | cons b src2 =>
    by_cases hts : b &&& 128 ≠ 0
    · -- timestamped framing
      cases src2 with
      | nil => simp [genericFrame, hts] at h
      | cons b0 s3 =>
        cases s3 with
        | nil => simp [genericFrame, hts] at h
        | cons b1 src3 =>
          rw [genericFrame_cons_ts 29 (kindName 29) s b b0 b1 src3 hts] at h
          split at h
          · simp at h
          · simp only [frameData] at h
            split at h
            · simp at h
            · rename_i v ts t2 heq
              simp only [StepResult.ok.injEq] at h
              obtain ⟨h1, h2, h3⟩ := h
              subst h1; subst h2
              constructor
              · intro ets hprev
                rw [hprev] at heq
                simp [kindParse] at heq
                exact heq.2.1.symm
              · intro p hprev hne
                rw [hprev] at heq
                simp [kindParse, hne] at heq
                simp [tockDelta, List.getD, u16le, ← heq.2.1]
    · -- non-timestamped framing
      rw [genericFrame_cons_plain 29 (kindName 29) s b src2
        (not_ne_iff.mp hts)] at h
      simp only [frameData] at h
      split at h
      · simp at h
      · rename_i v ts t2 heq
        simp only [StepResult.ok.injEq] at h
        obtain ⟨h1, h2, h3⟩ := h
        subst h1; subst h2
        constructor
        · intro ets hprev
          rw [hprev] at heq
          simp [kindParse] at heq
          exact heq.2.1.symm
        · intro p hprev hne
          rw [hprev] at heq
          simp [kindParse, hne] at heq
          simp [← heq.2.1]

/-- Witness for `steps_timestamp_borrowing`: a step-count record framed
right after an energy record whose timestamp is 12345 µs inherits it. -/
theorem steps_timestamp_borrowing_witness :
    (stepRecord { PState.reset with prevRec := some ⟨30, some 12345⟩ }
        [29, 3, 1, 2, 3] =
      .ok
        { rtype := 29, name := "Steps", length := 3, timestamped := false,
          data := [1, 2, 3], raw := [29, 3, 1, 2, 3], ts := some 12345,
          pos := 0 }
        { t := PState.reset.t, pos := 5, prevRec := some ⟨29, some 12345⟩ }
        []) ∧
    ((∀ ets,
        ({ PState.reset with prevRec := some ⟨30, some 12345⟩ } : PState).prevRec
            = some ⟨30, some ets⟩ →
        ({ rtype := 29, name := "Steps", length := 3, timestamped := false,
           data := [1, 2, 3], raw := [29, 3, 1, 2, 3], ts := some 12345,
           pos := 0 } : Rec).ts = some ets) ∧
      (∀ p,
        ({ PState.reset with prevRec := some ⟨30, some 12345⟩ } : PState).prevRec
            = some p → p.rtype ≠ 30 →
        ({ rtype := 29, name := "Steps", length := 3, timestamped := false,
           data := [1, 2, 3], raw := [29, 3, 1, 2, 3], ts := some 12345,
           pos := 0 } : Rec).ts =
          if ({ rtype := 29, name := "Steps", length := 3, timestamped := false,
                data := [1, 2, 3], raw := [29, 3, 1, 2, 3], ts := some 12345,
                pos := 0 } : Rec).timestamped
          then some (({ PState.reset with
                prevRec := some ⟨30, some 12345⟩ } : PState).t.ts_base +
            (({ PState.reset with
                prevRec := some ⟨30, some 12345⟩ } : PState).t.tocks +
              (tockDelta [29, 3, 1, 2, 3] : Int)) * USEC_PER_TOCK)
          else none)) :=
  ⟨by decide,
    steps_timestamp_borrowing
      { PState.reset with prevRec := some ⟨30, some 12345⟩ }
      [3, 1, 2, 3]
      { rtype := 29, name := "Steps", length := 3, timestamped := false,
        data := [1, 2, 3], raw := [29, 3, 1, 2, 3], ts := some 12345,
        pos := 0 }
      { t := PState.reset.t, pos := 5, prevRec := some ⟨29, some 12345⟩ }
      [] (by decide)⟩

/-- A 0xFF sentinel run that extends to the very end of the buffer always
aborts with a ParseError: the greedy consumption loop pops before testing,
so it hits `IndexError` on the empty cursor and `Record.__init__` wraps it
— regardless of sector alignment. -/
theorem trailing_sentinel_parse_error (s : PState) (body : List Nat)
    (hbody : ∀ x ∈ body, x = 255) :
    stepRecord s (255 :: body) = .parseError := by
  have hd : body.dropWhile (fun b => b == 255) = [] := by
    rw [List.dropWhile_eq_nil_iff]
    intro x hx
    simp [hbody x hx]
  simp [stepRecord, stepUnused, hd]

/-- Counterexample to claim C3: a trailing run of 0xFF bytes at the end of
the buffer whose end is exactly sector-aligned (4080 bytes consumed from
position 0) does NOT produce an ErasedPadding record: the stream decoder
yields zero records and reports a decode failure, because the greedy
consumption loop pops past the end of the cursor before the alignment
test is ever reached. -/
theorem trailing_sentinel_counterexample :
    LogParser.parse (List.replicate 4080 255) = ([], false) ∧
    (PState.reset.pos + 4080) % SECTOR_USABLE = 0 := by
  refine ⟨?_, by decide⟩
  have hstep : stepRecord PState.reset (List.replicate 4080 255)
      = .parseError := by
    rw [show List.replicate 4080 (255 : Nat)
        = 255 :: List.replicate 4079 255 from rfl]
    exact trailing_sentinel_parse_error _ _
      (fun x hx => List.eq_of_mem_replicate hx)
  have hstrip : stripHeader (List.replicate 4080 255)
      = List.replicate 4080 255 := rfl
  simp only [LogParser.parse, hstrip, List.length_replicate]
  rw [show (4080 + 1 : Nat) = Nat.succ 4080 from rfl]
  rw [parseLoop, hstep]

/-- Claim C3 (amended): when the 0xFF erased-flash sentinel run is
terminated by a non-sentinel byte still on the cursor, the recovery path
behaves as claimed: the run is consumed greedily; if `byte_pos` at entry
plus the bytes consumed (type byte included) is an exact multiple of
4080 = 4096−16, exactly one synthetic padding record is emitted, carrying
the erased-byte count, no timestamp, and no state change beyond the byte
position; if misaligned, the consumed bytes minus the type byte are
re-injected and the generic framing path re-runs on them, with the
resulting record's kind label forced to `LostRecord` (and, like padding,
it never becomes the previous record).  A run that reaches the end of the
buffer, however, raises ParseError before the alignment test is ever
reached. -/
theorem sentinel_run_recovery (s : PState) (run : List Nat) (b : Nat)
    (rest : List Nat) (hrun : ∀ x ∈ run, x = 255) (hb : b ≠ 255) :
    (stepRecord s (255 :: (run ++ b :: rest)) =
      if (s.pos + (1 + run.length)) % SECTOR_USABLE = 0 then
        .ok
          { rtype := 255, name := "Unused", length := (255 :: run).length,
            timestamped := false, data := [], raw := 255 :: run, ts := none,
            pos := s.pos }
          { s with pos := s.pos + (255 :: run).length }
          (b :: rest)
      else
        match genericFrame 255 "LostRecord" s (run ++ b :: rest) with
        | .ok r s1 rest1 => .ok r { s1 with prevRec := s.prevRec } rest1
        | e => e) ∧
    (∀ r s1 rest1,
      genericFrame 255 "LostRecord" s (run ++ b :: rest) = .ok r s1 rest1 →
      r.name = "LostRecord" ∧ r.rtype = 255) := by
  obtain ⟨ht, hd⟩ := takeWhile_sentinel run b rest hrun hb
  refine ⟨?_, ?_⟩
  · simp only [stepRecord, stepUnused, ht, hd, if_pos rfl, List.length_cons,
      if_true]
  · intro r s1 rest1 hgen
    have hinv := genericFrame_ok_inv _ _ _ _ _ _ _ hgen
    exact ⟨hinv.2.1, hinv.1⟩

/-- Witness for `sentinel_run_recovery`: a 2-byte sentinel run at byte
position 4078, terminated by a type-7 byte, ends exactly at the 4080-byte
sector boundary and yields one padding record. -/
theorem sentinel_run_recovery_witness :
    ((∀ x ∈ ([255] : List Nat), x = 255) ∧ (7 : Nat) ≠ 255) ∧
    ((stepRecord { PState.reset with pos := 4078 }
        (255 :: ([255] ++ 7 :: [1, 2])) =
      if (({ PState.reset with pos := 4078 } : PState).pos +
            (1 + ([255] : List Nat).length)) % SECTOR_USABLE = 0 then
        .ok
          { rtype := 255, name := "Unused",
            length := (255 :: [255] : List Nat).length,
            timestamped := false, data := [], raw := 255 :: [255], ts := none,
            pos := ({ PState.reset with pos := 4078 } : PState).pos }
          { { PState.reset with pos := 4078 } with
            pos := ({ PState.reset with pos := 4078 } : PState).pos +
              (255 :: [255] : List Nat).length }
          (7 :: [1, 2])
      else
        match genericFrame 255 "LostRecord" { PState.reset with pos := 4078 }
            ([255] ++ 7 :: [1, 2]) with
        | .ok r s1 rest1 =>
          .ok r
            { s1 with
              prevRec := ({ PState.reset with pos := 4078 } : PState).prevRec }
            rest1
        | e => e) ∧
      (∀ r s1 rest1,
        genericFrame 255 "LostRecord" { PState.reset with pos := 4078 }
            ([255] ++ 7 :: [1, 2]) = .ok r s1 rest1 →
        r.name = "LostRecord" ∧ r.rtype = 255)) :=
  ⟨⟨by decide, by decide⟩,
    sentinel_run_recovery { PState.reset with pos := 4078 } [255] 7 [1, 2]
      (by decide) (by decide)⟩

/-! ## The stream decoder over well-framed buffers -/

/-- Suffix invariance of the payload phase of framing: if it consumed its
whole cursor with a complete payload, then on the cursor extended by a
tail it produces the same record and state, leaving exactly the tail. -/
theorem frameData_extend (c0 : Nat) (nm : String) (s : PState) (t1 : TState)
    (ts0 : Option Int) (tsFlag : Bool) (len : Nat) (rawHead : List Nat)
    (src tail : List Nat) (r : Rec) (s1 : PState)
    (h : frameData c0 nm s t1 ts0 tsFlag len rawHead src = .ok r s1 [])
    (hfull : r.data.length = r.length) :
    frameData c0 nm s t1 ts0 tsFlag len rawHead (src ++ tail)
      = .ok r s1 tail := by
  simp only [frameData] at h ⊢
  cases hk : kindParse c0 (src.take len) ts0 t1 s.prevRec with
  | none => rw [hk] at h; simp at h
  | some v =>
    obtain ⟨ts, t2⟩ := v
    rw [hk] at h
    simp only [StepResult.ok.injEq] at h
    obtain ⟨h1, h2, h3⟩ := h
    have hsl : src.length ≤ len := List.drop_eq_nil_iff.mp h3
    have hlen : src.length = len := by
      have hdl : (src.take len).length = len := by
        have := congrArg Rec.data h1
        have := congrArg Rec.length h1
        rw [← h1] at hfull
        simpa using hfull
      have hmin := List.length_take len src
      omega
    have htk : src.take len = src := by
      rw [← hlen]; exact @List.take_length Nat src
    rw [htk] at hk h1 h2
    rw [List.take_left' hlen, List.drop_left' hlen, hk, ← h1, ← h2]

/-- Suffix invariance of one full framing step: a record framed from a
chunk it consumes exactly (complete payload, ordinary type byte) is
framed identically from any extension of that chunk, leaving the tail. -/
theorem step_extend (s : PState) (c : List Nat) (r : Rec) (s1 : PState)
    (h : stepRecord s c = .ok r s1 [])
    (hfull : r.data.length = r.length)
    (hhead : c.head? ≠ some 255) :
    ∀ tail, stepRecord s (c ++ tail) = .ok r s1 tail := by
  intro tail
  cases c with
  | nil => simp [stepRecord] at h
  | cons t c1 =>
    have ht : t ≠ 255 := fun hEq => hhead (by simp [hEq])
    simp only [List.cons_append, stepRecord, if_neg ht] at h ⊢
    cases c1 with
    | nil => simp [genericFrame] at h
    | cons b c2 =>
      simp only [List.cons_append] at h ⊢
      by_cases hts : b &&& 128 ≠ 0
      · cases c2 with
        | nil => simp [genericFrame, hts] at h
        | cons b0 c3 =>
          cases c3 with
          | nil => simp [genericFrame, hts] at h
          | cons b1 c4 =>
            simp only [List.cons_append] at h ⊢
            rw [genericFrame_cons_ts t (kindName t) s b b0 b1 c4 hts] at h
            rw [genericFrame_cons_ts t (kindName t) s b b0 b1 (c4 ++ tail) hts]
            split at h
            · simp at h
            · rename_i hguard
              rw [if_neg hguard]
              exact frameData_extend _ _ _ _ _ _ _ _ _ _ _ _ h hfull
      · have hts0 : b &&& 128 = 0 := not_ne_iff.mp hts
        rw [genericFrame_cons_plain t (kindName t) s b c2 hts0] at h
        rw [genericFrame_cons_plain t (kindName t) s b (c2 ++ tail) hts0]
        exact frameData_extend _ _ _ _ _ _ _ _ _ _ _ _ h hfull

/-- The raw bytes recorded by the payload phase are exactly the header
bytes plus the consumed cursor, when the payload is complete and the
cursor fully consumed. -/
theorem frameData_raw (c0 : Nat) (nm : String) (s : PState) (t1 : TState)
    (ts0 : Option Int) (tsFlag : Bool) (len : Nat) (rawHead : List Nat)
    (src : List Nat) (r : Rec) (s1 : PState)
    (h : frameData c0 nm s t1 ts0 tsFlag len rawHead src = .ok r s1 [])
    (hfull : r.data.length = r.length) :
    r.raw = rawHead ++ src := by
  simp only [frameData] at h
  cases hk : kindParse c0 (src.take len) ts0 t1 s.prevRec with
  | none => rw [hk] at h; simp at h
  | some v =>
    obtain ⟨ts, t2⟩ := v
    rw [hk] at h
    simp only [StepResult.ok.injEq] at h
    obtain ⟨h1, h2, h3⟩ := h
    have hsl : src.length ≤ len := List.drop_eq_nil_iff.mp h3
    have hlen : src.length = len := by
      have hdl : (src.take len).length = len := by
        rw [← h1] at hfull
        simpa using hfull
      have hmin := List.length_take len src
      omega
    have htk : src.take len = src := by
      rw [← hlen]; exact @List.take_length Nat src
    rw [htk] at h1
    rw [← h1]

/-- A record framed from a chunk it consumes exactly carries that chunk,
byte for byte, as its raw bytes. -/
theorem step_raw (s : PState) (c : List Nat) (r : Rec) (s1 : PState)
    (h : stepRecord s c = .ok r s1 [])
    (hfull : r.data.length = r.length)
    (hhead : c.head? ≠ some 255) :
    r.raw = c := by
  cases c with
  | nil => simp [stepRecord] at h
  | cons t c1 =>
    have ht : t ≠ 255 := fun hEq => hhead (by simp [hEq])
    simp only [stepRecord, if_neg ht] at h
    cases c1 with
    | nil => simp [genericFrame] at h
    | cons b c2 =>
      by_cases hts : b &&& 128 ≠ 0
      · cases c2 with
        | nil => simp [genericFrame, hts] at h
        | cons b0 c3 =>
          cases c3 with
          | nil => simp [genericFrame, hts] at h
          | cons b1 c4 =>
            rw [genericFrame_cons_ts t (kindName t) s b b0 b1 c4 hts] at h
            split at h
            · simp at h
            · exact frameData_raw _ _ _ _ _ _ _ _ _ _ _ h hfull
      · rw [genericFrame_cons_plain t (kindName t) s b c2 (not_ne_iff.mp hts)] at h
        exact frameData_raw _ _ _ _ _ _ _ _ _ _ _ h hfull

/-- A chain of validly framed records yields one record per chunk, each
carrying its chunk as raw bytes. -/
theorem Frames.raw_eq {s : PState} {cs : List (List Nat)} {rs : List Rec}
    {s2 : PState} (hf : Frames s cs rs s2) : rs.map Rec.raw = cs := by
  induction hf with
  | nil => rfl
  | cons hstep hfull hhead _ ih =>
    simp only [List.map_cons, ih, List.cons.injEq, and_true]
    exact step_raw _ _ _ _ hstep hfull hhead

/-- The driver loop consumes a chain of validly framed chunks one record
per chunk, in order, and then terminates cleanly, given enough fuel. -/
theorem parseLoop_frames {s : PState} {cs : List (List Nat)} {rs : List Rec}
    {s2 : PState} (hf : Frames s cs rs s2) :
    ∀ fuel, cs.flatten.length < fuel →
      parseLoop fuel s cs.flatten = (rs, true) := by
  induction hf with
  | nil =>
    intro fuel hfuel
    match fuel, hfuel with
    | Nat.succ n, _ => simp [parseLoop, stepRecord]
  | @cons s c r s1 cs rs s2 hstep hfull hhead htail ih =>
    intro fuel hfuel
    match fuel, hfuel with
    | Nat.succ n, hfuel =>
      have hc : c ≠ [] := by
        intro h0
        rw [h0] at hstep
        simp [stepRecord] at hstep
      have hclen : 0 < c.length := List.length_pos.mpr hc
      have hflat : (c :: cs).flatten = c ++ cs.flatten := List.flatten_cons
      have hlen : (c :: cs).flatten.length = c.length + cs.flatten.length := by
        rw [hflat]; exact List.length_append c cs.flatten
      have hstep2 := step_extend _ _ _ _ hstep hfull hhead cs.flatten
      rw [hflat]
      simp only [parseLoop, hstep2]
      rw [ih n (by omega)]

set_option maxRecDepth 40000 in
/-- The datetime-range error path of `TimeDeltaRecord.parse`, exercised
end to end: a buffer of 30 validly framed time-delta records each jumping
back 2^31 seconds (about 68 years) is decoded for 29 records, after which
the accumulated time drops below year 1, `now = _ts_base +
timedelta(seconds=_tocks/64)` raises `OverflowError`, and the stream
aborts with a decode failure instead of ending cleanly.  With only 29
such records the stream still ends cleanly. -/
theorem time_delta_overflow_aborts_stream :
    (LogParser.parse ((List.replicate 30 [7, 4, 0, 0, 0, 128]).flatten)).1.length
      = 29 ∧
    (LogParser.parse ((List.replicate 30 [7, 4, 0, 0, 0, 128]).flatten)).2
      = false ∧
    (LogParser.parse ((List.replicate 29 [7, 4, 0, 0, 0, 128]).flatten)).1.length
      = 29 ∧
    (LogParser.parse ((List.replicate 29 [7, 4, 0, 0, 0, 128]).flatten)).2
      = true := by
  refine ⟨by decide, by decide, by decide, by decide⟩

/-- Claim C1: for every input buffer that is a concatenation of N validly
framed records with no 0xFF sentinel runs (each chunk consumed exactly by
one successful framing step) and no transfer header (the header stripper
leaves the buffer unchanged), `LogParser.parse` yields exactly N records,
in buffer order, terminating cleanly, and the sum of the records'
raw-byte lengths equals the buffer length. -/
theorem stream_decoder_yields_framed_records (cs : List (List Nat))
    (rs : List Rec) (s2 : PState)
    (hf : Frames PState.reset cs rs s2)
    (hnh : stripHeader cs.flatten = cs.flatten) :
    LogParser.parse cs.flatten = (rs, true) ∧
    rs.length = cs.length ∧
    (rs.map (fun r => r.raw.length)).sum = cs.flatten.length := by
  refine ⟨?_, ?_, ?_⟩
  · simp only [LogParser.parse, hnh]
    exact parseLoop_frames hf _ (by omega)
  · have := congrArg List.length hf.raw_eq
    simpa using this
  · have hraw := hf.raw_eq
    have : rs.map (fun r => r.raw.length) = (rs.map Rec.raw).map List.length := by
      simp
    rw [this, hraw, List.length_flatten]

/-- Witness for `stream_decoder_yields_framed_records`: a buffer of two
framed records (a 1-byte Reboot and a 0-byte Disconnect) decodes to
exactly those two records, 5 bytes in total. -/
theorem stream_decoder_yields_framed_records_witness :
    LogParser.parse ([[2, 1, 0], [6, 0]] : List (List Nat)).flatten =
      ([{ rtype := 2, name := "Reboot", length := 1, timestamped := false,
          data := [0], raw := [2, 1, 0], ts := none, pos := 0 },
        { rtype := 6, name := "Disconnect", length := 0, timestamped := false,
          data := [], raw := [6, 0], ts := none, pos := 3 }], true) ∧
    ([{ rtype := 2, name := "Reboot", length := 1, timestamped := false,
        data := [0], raw := [2, 1, 0], ts := none, pos := 0 },
      { rtype := 6, name := "Disconnect", length := 0, timestamped := false,
        data := [], raw := [6, 0], ts := none, pos := 3 }] : List Rec).length
      = ([[2, 1, 0], [6, 0]] : List (List Nat)).length ∧
    (([{ rtype := 2, name := "Reboot", length := 1, timestamped := false,
         data := [0], raw := [2, 1, 0], ts := none, pos := 0 },
       { rtype := 6, name := "Disconnect", length := 0, timestamped := false,
         data := [], raw := [6, 0], ts := none, pos := 3 }] : List Rec).map
      (fun r => r.raw.length)).sum
      = ([[2, 1, 0], [6, 0]] : List (List Nat)).flatten.length :=
  stream_decoder_yields_framed_records [[2, 1, 0], [6, 0]]
    [{ rtype := 2, name := "Reboot", length := 1, timestamped := false,
       data := [0], raw := [2, 1, 0], ts := none, pos := 0 },
     { rtype := 6, name := "Disconnect", length := 0, timestamped := false,
       data := [], raw := [6, 0], ts := none, pos := 3 }]
    { t := PState.reset.t, pos := 5, prevRec := some ⟨6, none⟩ }
    (@Frames.cons PState.reset [2, 1, 0]
      { rtype := 2, name := "Reboot", length := 1, timestamped := false,
        data := [0], raw := [2, 1, 0], ts := none, pos := 0 }
      (⟨PState.reset.t, 3, some ⟨2, none⟩⟩ : PState)
      [[6, 0]]
      [{ rtype := 6, name := "Disconnect", length := 0, timestamped := false,
         data := [], raw := [6, 0], ts := none, pos := 3 }]
      (⟨PState.reset.t, 5, some ⟨6, none⟩⟩ : PState)
      (by decide) (by decide) (by decide)
      (@Frames.cons (⟨PState.reset.t, 3, some ⟨2, none⟩⟩ : PState) [6, 0]
        { rtype := 6, name := "Disconnect", length := 0, timestamped := false,
          data := [], raw := [6, 0], ts := none, pos := 3 }
        (⟨PState.reset.t, 5, some ⟨6, none⟩⟩ : PState)
        [] []
        (⟨PState.reset.t, 5, some ⟨6, none⟩⟩ : PState)
        (by decide) (by decide) (by decide)
        (Frames.nil (⟨PState.reset.t, 5, some ⟨6, none⟩⟩ : PState))))
    (by decide)
